import Mathlib

/-!
A verification development for the Bonus Schedule Generator (`src/app.py`).
The pipeline is shallowly embedded: pandas timestamps become a record of
calendar fields with lexicographic order, pandas cells become an inductive
type distinguishing null / numeric / string values (a string cell carries
the result of Python `float()` on it, `some q` when parseable), and the
Streamlit `main` flow becomes a pure function into an `Outcome` type.
Python floats are modelled as rationals.
-/

/-- A point in time as pandas `Timestamp` exposes it to the month-window
comparison: calendar fields plus seconds within the day.  Real timestamps
compare lexicographically on (year, month, day, sec). -/
structure Timestamp where
  year : Int
  month : Nat
  day : Nat
  sec : Nat
deriving DecidableEq

/-- `a ≤ b` on timestamps, lexicographic, as a boolean (pandas `>=` flipped). -/
def Timestamp.leb (a b : Timestamp) : Bool :=
  if a.year ≠ b.year then a.year < b.year
  else if a.month ≠ b.month then a.month < b.month
  else if a.day ≠ b.day then a.day < b.day
  else a.sec ≤ b.sec

/-- Strict `a < b` on timestamps, lexicographic (pandas `<`). -/
def Timestamp.ltb (a b : Timestamp) : Bool :=
  if a.year ≠ b.year then a.year < b.year
  else if a.month ≠ b.month then a.month < b.month
  else if a.day ≠ b.day then a.day < b.day
  else a.sec < b.sec

/-- A calendar date, as `month_ending` (a Python `datetime.date`) provides it. -/
structure Date where
  year : Int
  month : Nat
  day : Nat
deriving DecidableEq

/-- `month_start = pd.Timestamp(month_ending_date.replace(day=1))` (app.py line 77):
midnight on the first of the target month. -/
def monthStart (d : Date) : Timestamp :=
  { year := d.year, month := d.month, day := 1, sec := 0 }

/-- `month_end` (app.py lines 78-81): first of the next month, with December
rolling to January of the following year. -/
def monthEnd (d : Date) : Timestamp :=
  if d.month = 12 then
    { year := d.year + 1, month := 1, day := 1, sec := 0 }
  else
    { year := d.year, month := d.month + 1, day := 1, sec := 0 }

/-- A scalar as it reaches `extract_county_from_display_name` /
`extract_grantor_from_display_name`: pandas NaN, a string, or a non-string
scalar (modelled by an integer), which Python `str()` renders before splitting. -/
inductive PyValue where
  | nan
  | str (s : String)
  | intVal (n : Int)
deriving DecidableEq

/-- `pd.isna` on a scalar. -/
def PyValue.isna : PyValue → Bool
  | .nan => true
  | _ => false

/-- Python `str()` on the scalar (`str(display_name)`, app.py lines 56, 65). -/
def pyStr : PyValue → String
  | .nan => "nan"
  | .str s => s
  | .intVal n => toString n

/-- Split a character list on whitespace, dropping empty pieces; `acc` holds
the characters of the current token, reversed. -/
def splitWsAux : List Char → List Char → List String
  | [], acc => if acc = [] then [] else [String.mk acc.reverse]
  | c :: rest, acc =>
      if c.isWhitespace then
        (if acc = [] then [] else [String.mk acc.reverse]) ++ splitWsAux rest []
      else splitWsAux rest (c :: acc)

/-- Python `str.split()` with no argument: split on runs of whitespace,
dropping empty pieces. -/
def pySplit (s : String) : List String :=
  splitWsAux s.toList []

/-- `extract_county_from_display_name` (app.py lines 52-59): NaN gives
"Unknown"; otherwise the second whitespace token, or "Unknown" when there
are fewer than two tokens. -/
def extract_county_from_display_name (display_name : PyValue) : String :=
  if display_name.isna then "Unknown"
  else
    let parts := pySplit (pyStr display_name)
    if h : 2 ≤ parts.length then parts[1] else "Unknown"

/-- `extract_grantor_from_display_name` (app.py lines 61-68): NaN gives
"Unknown"; otherwise the third whitespace token, or "Unknown" when there
are fewer than three tokens. -/
def extract_grantor_from_display_name (display_name : PyValue) : String :=
  if display_name.isna then "Unknown"
  else
    let parts := pySplit (pyStr display_name)
    if h : 3 ≤ parts.length then parts[2] else "Unknown"

/-- A monetary cell of the export: pandas NaN/None, a number, or a string.
A string cell carries the value Python `float()` yields on it (`some q`
when the string parses as a number, `none` when `float()` raises
`ValueError`); the parser itself is outside the embedding. -/
inductive Cell where
  | null
  | num (q : ℚ)
  | str (s : String) (asFloat : Option ℚ)
deriving DecidableEq

/-- `float(row[...]) if pd.notna(row[...]) else 0.0` (app.py lines 103-105):
null gives 0.0; a number converts; a string converts when parseable and the
whole run aborts with `ValueError` otherwise (there is no
`errors='coerce'` here, only the `pd.notna` guard). -/
def floatOf : Cell → Except String ℚ
  | .null => .ok 0
  | .num q => .ok q
  | .str _ (some q) => .ok q
  | .str s none => .error ("ValueError: could not convert string to float: " ++ s)

/-- A date cell: pandas NaN/None, or a raw value together with the result of
`pd.to_datetime` on it (`some t` when it parses, `none` when `to_datetime`
raises, since line 96 passes no `errors='coerce'`). -/
inductive DateCell where
  | null
  | val (raw : String) (parsed : Option Timestamp)
deriving DecidableEq

/-- Two-digit zero-padded decimal rendering of `n < 100`. -/
def pad2 (n : Nat) : String :=
  (if n < 10 then "0" else "") ++ toString n

/-- `strftime('%m/%d/%y')` on a parsed timestamp: zero-padded month, day and
two-digit year. -/
def strfDate (t : Timestamp) : String :=
  pad2 t.month ++ "/" ++ pad2 t.day ++ "/" ++ pad2 (t.year % 100).toNat

/-- `pd.to_datetime(row['custom.Asset_Date_Sold']).strftime('%m/%d/%y') if
pd.notna(...) else ''` (app.py line 96): null gives the empty string; a
parseable value formats; an unparseable value raises, aborting the run. -/
def fundingDateStr : DateCell → Except String String
  | .null => .ok ""
  | .val _ (some t) => .ok (strfDate t)
  | .val s none => .error ("ValueError: could not parse date: " ++ s)

/-- One row of the Close.com export, restricted to the columns the pipeline
reads.  `date_won` is `primary_opportunity_date_won` already passed through
`pd.to_datetime(..., errors='coerce')` (app.py line 74): `none` is NaT. -/
structure RawRecord where
  date_won : Option Timestamp
  status : String
  asset_date_sold : DateCell
  all_state : Option String
  all_apn : Option String
  display_name : PyValue
  gross_sales_price : Cell
  closing_costs : Cell
  cost_basis : Cell
deriving DecidableEq

/-- One derived bonus-schedule row (the dict built at app.py lines 113-124). -/
structure BonusRow where
  funding_date : String
  state : String
  county : String
  grantor : String
  apn : String
  gross_sales_price : ℚ
  closing_costs : ℚ
  cash_to_seller : ℚ
  asset_cost : ℚ
  gross_profit : ℚ
deriving DecidableEq

/-- The boolean mask of app.py lines 83-87: the coerced close timestamp lies
in `[month_start, month_end)` (NaT compares false) and the status label is
exactly "Sold". -/
def soldInMonth (d : Date) (r : RawRecord) : Bool :=
  match r.date_won with
  | none => false
  | some t => (monthStart d).leb t && t.ltb (monthEnd d) && r.status == "Sold"

/-- The per-row extraction body of app.py lines 96-124, for one filtered row:
funding date, identity fields, the three monetary fields, and the derived
quantities `reductions`, `cash_to_seller`, `asset_cost`, `gross_profit`.
Any `float()`/`to_datetime` failure propagates as an error. -/
def buildRow (mls_cost : ℚ) (r : RawRecord) : Except String BonusRow :=
  match fundingDateStr r.asset_date_sold with
  | .error e => .error e
  | .ok funding_date =>
    let state := r.all_state.getD ""
    let county := extract_county_from_display_name r.display_name
    let grantor := extract_grantor_from_display_name r.display_name
    let apn := r.all_apn.getD ""
    match floatOf r.gross_sales_price with
    | .error e => .error e
    | .ok contract_price =>
      match floatOf r.closing_costs with
      | .error e => .error e
      | .ok closing_costs =>
        match floatOf r.cost_basis with
        | .error e => .error e
        | .ok cost_basis =>
          let reductions := closing_costs
          let cash_to_seller := contract_price - reductions
          let asset_cost := cost_basis + mls_cost
          let gross_profit := cash_to_seller - asset_cost
          .ok { funding_date := funding_date, state := state, county := county,
                grantor := grantor, apn := apn,
                gross_sales_price := contract_price, closing_costs := reductions,
                cash_to_seller := cash_to_seller, asset_cost := asset_cost,
                gross_profit := gross_profit }

/-- `process_close_export` (app.py lines 70-126): filter to the month window
and "Sold" status, return `none` when the filtered set is empty, otherwise
extract every filtered row (an extraction error aborts the whole call and is
caught by `main`'s `except` block). -/
def process_close_export (df : List RawRecord) (month_ending : Date) (mls_cost : ℚ) :
    Except String (Option (List BonusRow)) :=
  let df_filtered := df.filter (soldInMonth month_ending)
  if df_filtered.isEmpty then .ok none
  else (df_filtered.mapM (buildRow mls_cost)).map some

/-- Round a rational to the nearest integer, ties to even, the rounding
Python's fixed-point float formatting performs for the `.2f` conversion. -/
def roundHalfEven (q : ℚ) : ℤ :=
  let f := q.floor
  if q - f < 1 / 2 then f
  else if q - f > 1 / 2 then f + 1
  else if f % 2 = 0 then f else f + 1

/-- Decimal digits of `n`, least significant first, with explicit fuel so the
recursion is structural (`fuel = n` always suffices). -/
def digitsAux : Nat → Nat → List Nat
  | 0, _ => []
  | _ + 1, 0 => []
  | fuel + 1, n => n % 10 :: digitsAux fuel (n / 10)

/-- Decimal digits of `n`, least significant first (empty exactly for 0). -/
def natDigits (n : Nat) : List Nat := digitsAux n n

/-- The character for a decimal digit. -/
def digitChar (d : Nat) : Char := Char.ofNat (48 + d)

/-- The decimal digit characters of `n`, most significant first, "0" for 0 —
the integer part of Python's `,.2f` rendering before commas are inserted. -/
def digitStr (n : Nat) : List Char :=
  if n = 0 then ['0'] else ((natDigits n).map digitChar).reverse

/-- Chunk a list into groups of three, a final shorter group allowed. -/
def chunk3 {α : Type} : List α → List (List α)
  | [] => []
  | [a] => [[a]]
  | [a, b] => [[a, b]]
  | a :: b :: c :: rest => [a, b, c] :: chunk3 rest

/-- The comma groups of a digit string (most significant first): chunks of
three counted from the right, the leftmost chunk holding one to three
digits. -/
def commaGroups (ds : List Char) : List (List Char) :=
  ((chunk3 ds.reverse).reverse).map List.reverse

/-- Join the comma groups with a `','` between consecutive groups. -/
def joinComma : List (List Char) → List Char
  | [] => []
  | [p] => p
  | p :: rest => p ++ ',' :: joinComma rest

/-- Insert thousands separators into a digit string, as Python's `,` format
flag does. -/
def groupDigits (ds : List Char) : String :=
  String.mk (joinComma (commaGroups ds))

/-- Exactly two fraction digits of a cent count `m < 100`, as `.2f` pads. -/
def twoFracDigits (m : Nat) : List Char :=
  [digitChar (m / 10), digitChar (m % 10)]

/-- `format_currency` (app.py lines 128-130): Python `f"${value:,.2f}"`.
The sign produced by the `f` conversion sits between the literal dollar sign
and the digits.  (The float artifact of a negative zero rounding to
"-0.00" is not modelled; the sign here is that of the rounded cent count.) -/
def format_currency (value : ℚ) : String :=
  let cents := roundHalfEven (value * 100)
  let n := cents.natAbs
  "$" ++ (if cents < 0 then "-" else "")
      ++ groupDigits (digitStr (n / 100)) ++ "." ++ String.mk (twoFracDigits (n % 100))

/-- A presentation-only bonus row: the five currency columns replaced by
their formatted strings, the identity columns carried over. -/
structure DisplayRow where
  funding_date : String
  state : String
  county : String
  grantor : String
  apn : String
  gross_sales_price : String
  closing_costs : String
  cash_to_seller : String
  asset_cost : String
  gross_profit : String
deriving DecidableEq

/-- The per-row effect of `create_bonus_schedule_dataframe`'s column loop
(app.py lines 138-140): each currency column mapped through
`format_currency(float(x))` (every value is a present float here), the
other columns untouched. -/
def formatBonusRow (b : BonusRow) : DisplayRow :=
  { funding_date := b.funding_date, state := b.state, county := b.county,
    grantor := b.grantor, apn := b.apn,
    gross_sales_price := format_currency b.gross_sales_price,
    closing_costs := format_currency b.closing_costs,
    cash_to_seller := format_currency b.cash_to_seller,
    asset_cost := format_currency b.asset_cost,
    gross_profit := format_currency b.gross_profit }

/-- `create_bonus_schedule_dataframe` (app.py lines 132-142): work on a copy
of the processed frame, format the five currency columns, return the new
frame; the processed frame itself is not written to. -/
def create_bonus_schedule_dataframe (processed : List BonusRow) : List DisplayRow :=
  processed.map formatBonusRow

/-- `subtotal = processed_df['Gross Profit'].sum()` (app.py line 498), the
empty sum being 0. -/
def scheduleSubtotal (rows : List BonusRow) : ℚ :=
  (rows.map BonusRow.gross_profit).sum

/-- `total = subtotal + prior_adjustment` (app.py line 499). -/
def scheduleTotal (rows : List BonusRow) (prior_adjustment : ℚ) : ℚ :=
  scheduleSubtotal rows + prior_adjustment

/-- What the main flow (app.py lines 483-626) presents for one processed
upload: the caught-exception error banner, the "no sold properties" warning,
or the rendered report carrying the numeric rows, the numeric totals and the
formatted display rows. -/
inductive Outcome where
  | errorOut (msg : String)
  | noRecords
  | report (rows : List BonusRow) (subtotal total : ℚ) (display : List DisplayRow)
deriving DecidableEq

/-- The main flow after a successful CSV read (app.py lines 492-502): run
`process_close_export`; `None` or an empty frame shows the warning;
otherwise the totals are computed from the numeric frame first and the
display frame is built afterwards; an exception lands in the `except`
banner (line 625). -/
def mainOutcome (df : List RawRecord) (month_ending : Date) (mls_cost prior_adjustment : ℚ) :
    Outcome :=
  match process_close_export df month_ending mls_cost with
  | .error e => .errorOut e
  | .ok none => .noRecords
  | .ok (some rows) =>
      if rows.length = 0 then .noRecords
      else
        let subtotal := scheduleSubtotal rows
        let total := subtotal + prior_adjustment
        .report rows subtotal total (create_bonus_schedule_dataframe rows)

/-- One written worksheet cell: 1-based Excel row and column plus content. -/
structure SheetCell where
  row : Nat
  col : Nat
  content : String
deriving DecidableEq

/-- The cells of one dataframe row written at worksheet row `r`, columns
numbered from `c`. -/
def rowCells (r c : Nat) : List String → List SheetCell
  | [] => []
  | v :: vs => { row := r, col := c, content := v } :: rowCells r (c + 1) vs

/-- The cells `DataFrame.to_excel` writes for consecutive rows starting at
worksheet row `r`, each row's values in columns 1, 2, …. -/
def tableCells (r : Nat) : List (List String) → List SheetCell
  | [] => []
  | row :: rest => rowCells r 1 row ++ tableCells (r + 1) rest

/-- The result of `export_to_excel`: the written cells and the coordinates
given a bold font. -/
structure Sheet where
  cells : List SheetCell
  boldCells : List (Nat × Nat)
deriving DecidableEq

/-- `export_to_excel` (app.py lines 144-196) as the set of cell writes it
performs: `to_excel(..., startrow=2)` puts the header row at Excel row 3 and
the data at rows 4…n+3; A1 and A2 get the title and period lines;
`last_row = len(df) + 4` locates SUBTOTAL / PRIOR ADJUSTMENT / TOTAL in
columns I (9) and J (10); A1, A2 and the six totals cells are bolded. -/
def export_to_excel (dfRows : List (List String)) (headers : List String)
    (monthStr subtotal prior_adj total : String) : Sheet :=
  let n := dfRows.length
  let last_row := n + 4
  { cells :=
      tableCells 3 (headers :: dfRows)
        ++ [{ row := 1, col := 1, content := "Remarkable Land® Bonus Schedule" },
            { row := 2, col := 1, content := "Month Ending: " ++ monthStr },
            { row := last_row, col := 9, content := "SUBTOTAL" },
            { row := last_row, col := 10, content := subtotal },
            { row := last_row + 1, col := 9, content := "PRIOR ADJUSTMENT" },
            { row := last_row + 1, col := 10, content := prior_adj },
            { row := last_row + 2, col := 9, content := "TOTAL" },
            { row := last_row + 2, col := 10, content := total }],
    boldCells :=
      [(1, 1), (2, 1),
       (last_row, 9), (last_row, 10),
       (last_row + 1, 9), (last_row + 1, 10),
       (last_row + 2, 9), (last_row + 2, 10)] }

/-- The longest stringified value openpyxl sees in a column of the used
range.  Cells of the range never written by `export_to_excel` hold `None`,
which the width loop stringifies as `"None"` (length 4), hence the base 4:
every column of a non-empty sheet contains at least one such empty cell. -/
def maxColLen (cells : List SheetCell) (col : Nat) : Nat :=
  cells.foldr (fun cell acc => if cell.col = col then max cell.content.length acc else acc) 4

/-- The column-width rule of app.py lines 183-193:
`min(max_length + 2, 50)`. -/
def colWidth (cells : List SheetCell) (col : Nat) : Nat :=
  min (maxColLen cells col + 2) 50

/-- Following the spec's words: "first_of_month(D)", midnight on the first
day of D's calendar month. -/
def specFirstOfMonth (d : Date) : Timestamp :=
  { year := d.year, month := d.month, day := 1, sec := 0 }

/-- Following the spec's words: "first_of_next_month(D)", midnight on the
first day of the calendar month after D's, December rolling to January of
the following year. -/
def specFirstOfNextMonth (d : Date) : Timestamp :=
  if d.month = 12 then
    { year := d.year + 1, month := 1, day := 1, sec := 0 }
  else
    { year := d.year, month := d.month + 1, day := 1, sec := 0 }

/-- A concrete well-formed export row: sold on 2024-09-15, funded 2024-09-20,
prices 100000 / 2000 / 50000. -/
def sampleRecord : RawRecord :=
  { date_won := some { year := 2024, month := 9, day := 15, sec := 3600 },
    status := "Sold",
    asset_date_sold := .val "2024-09-20" (some { year := 2024, month := 9, day := 20, sec := 0 }),
    all_state := some "TX",
    all_apn := some "12345",
    display_name := .str "TX Hidalgo Mujica",
    gross_sales_price := .num 100000,
    closing_costs := .num 2000,
    cost_basis := .num 50000 }

/-- The bonus row `buildRow 500 sampleRecord` produces. -/
def sampleBuilt : BonusRow :=
  { funding_date := "09/20/24", state := "TX", county := "Hidalgo",
    grantor := "Mujica", apn := "12345",
    gross_sales_price := 100000, closing_costs := 2000,
    cash_to_seller := 98000, asset_cost := 50500, gross_profit := 47500 }

/-- A filtered row with every optional field absent/null. -/
def nullRecord : RawRecord :=
  { date_won := some { year := 2024, month := 9, day := 10, sec := 0 },
    status := "Sold",
    asset_date_sold := .null,
    all_state := none,
    all_apn := none,
    display_name := .nan,
    gross_sales_price := .null,
    closing_costs := .null,
    cost_basis := .null }

/-- A row inside the period window whose gross-sales-price cell is a present
but non-numeric string, on which Python `float()` raises. -/
def badMoneyRecord : RawRecord :=
  { date_won := some { year := 2024, month := 9, day := 15, sec := 3600 },
    status := "Sold",
    asset_date_sold := .val "2024-09-20" (some { year := 2024, month := 9, day := 20, sec := 0 }),
    all_state := some "TX",
    all_apn := some "12345",
    display_name := .str "TX Hidalgo Mujica",
    gross_sales_price := .str "N/A" none,
    closing_costs := .num 2000,
    cost_basis := .num 50000 }

/-- The ten column headers of the processed frame, in order. -/
def headers10 : List String :=
  ["Funding Date", "State", "County", "Grantor", "APN", "Gross Sales Price",
   "Closing Costs", "Cash to Seller", "Asset Cost", "Gross Profit"]

/-- One concrete formatted data row for the spreadsheet renderer. -/
def dfRows1 : List (List String) :=
  [["09/20/24", "TX", "Hidalgo", "Mujica", "12345", "$100,000.00",
    "$2,000.00", "$98,000.00", "$50,500.00", "$47,500.00"]]

/-- The display row `formatBonusRow sampleBuilt` produces. -/
def sampleDisplay : DisplayRow :=
  { funding_date := "09/20/24", state := "TX", county := "Hidalgo",
    grantor := "Mujica", apn := "12345",
    gross_sales_price := "$100,000.00", closing_costs := "$2,000.00",
    cash_to_seller := "$98,000.00", asset_cost := "$50,500.00",
    gross_profit := "$47,500.00" }

/-- C1: for every filtered record, the extraction derives
`cash_to_seller = gross_sales_price - reductions` (reductions being the
closing-costs field), `asset_cost = cost_basis + mls_cost` and
`gross_profit = cash_to_seller - asset_cost`, exactly over the rationals,
so a negative gross profit propagates unmodified. -/
theorem bonus_calculator_derivations (mls_cost : ℚ) (r : RawRecord) (b : BonusRow)
    (gs cc cb : ℚ)
    (hb : buildRow mls_cost r = .ok b)
    (hgs : floatOf r.gross_sales_price = .ok gs)
    (hcc : floatOf r.closing_costs = .ok cc)
    (hcb : floatOf r.cost_basis = .ok cb) :
    b.gross_sales_price = gs ∧ b.closing_costs = cc ∧
    b.cash_to_seller = gs - cc ∧
    b.asset_cost = cb + mls_cost ∧
    b.gross_profit = b.cash_to_seller - b.asset_cost := by
  cases hfd : fundingDateStr r.asset_date_sold with
  | error e => simp [buildRow, hfd] at hb
  | ok fd =>
    simp only [buildRow, hfd, hgs, hcc, hcb, Except.ok.injEq] at hb
    subst hb
    simp

/-- Witness for C1 at `sampleRecord` with the default 500 addend. -/
theorem bonus_calculator_derivations_witness :
    (buildRow 500 sampleRecord = .ok sampleBuilt ∧
     floatOf sampleRecord.gross_sales_price = .ok 100000 ∧
     floatOf sampleRecord.closing_costs = .ok 2000 ∧
     floatOf sampleRecord.cost_basis = .ok 50000) ∧
    (sampleBuilt.gross_sales_price = 100000 ∧ sampleBuilt.closing_costs = 2000 ∧
     sampleBuilt.cash_to_seller = 100000 - 2000 ∧
     sampleBuilt.asset_cost = 50000 + 500 ∧
     sampleBuilt.gross_profit = sampleBuilt.cash_to_seller - sampleBuilt.asset_cost) := by
  have h1 : buildRow 500 sampleRecord = .ok sampleBuilt := by with_unfolding_all rfl
  have h2 : floatOf sampleRecord.gross_sales_price = .ok 100000 := rfl
  have h3 : floatOf sampleRecord.closing_costs = .ok 2000 := rfl
  have h4 : floatOf sampleRecord.cost_basis = .ok 50000 := rfl
  exact ⟨⟨h1, h2, h3, h4⟩,
    bonus_calculator_derivations 500 sampleRecord sampleBuilt 100000 2000 50000 h1 h2 h3 h4⟩

/-- C2: the period filter keeps exactly the rows whose close timestamp `t`
satisfies `first_of_month(D) ≤ t < first_of_next_month(D)` and whose status
label is literally "Sold"; the code's upper bound agrees with the spec's
`first_of_next_month`, and for any December date it is January 1 of the
following year. -/
theorem period_filter_window (df : List RawRecord) (d : Date) (r : RawRecord)
    (y : Int) (dayv : Nat) :
    (r ∈ df.filter (soldInMonth d) ↔
      r ∈ df ∧ ∃ t, r.date_won = some t ∧
        (specFirstOfMonth d).leb t = true ∧ t.ltb (specFirstOfNextMonth d) = true ∧
        r.status = "Sold") ∧
    monthStart d = specFirstOfMonth d ∧
    monthEnd d = specFirstOfNextMonth d ∧
    monthEnd { year := y, month := 12, day := dayv } =
      { year := y + 1, month := 1, day := 1, sec := 0 } := by
  refine ⟨?_, rfl, rfl, by simp [monthEnd]⟩
  rw [List.mem_filter]
  constructor
  · rintro ⟨hmem, hsold⟩
    cases hw : r.date_won with
    | none => rw [soldInMonth, hw] at hsold; cases hsold
    | some t =>
      rw [soldInMonth, hw] at hsold
      simp only [Bool.and_eq_true, beq_iff_eq] at hsold
      exact ⟨hmem, t, rfl, hsold.1.1, hsold.1.2, hsold.2⟩
  · rintro ⟨hmem, t, hw, hge, hlt, hst⟩
    refine ⟨hmem, ?_⟩
    rw [soldInMonth, hw]
    simp only [Bool.and_eq_true, beq_iff_eq]
    exact ⟨⟨hge, hlt⟩, hst⟩

/-- Witness for C2: `sampleRecord` is kept for September 2024, and a December
2024 target yields the January 1, 2025 upper bound. -/
theorem period_filter_window_witness :
    sampleRecord ∈ [sampleRecord].filter (soldInMonth { year := 2024, month := 9, day := 30 }) ∧
    monthEnd { year := 2024, month := 12, day := 31 } =
      { year := 2025, month := 1, day := 1, sec := 0 } := by
  have h := period_filter_window [sampleRecord] { year := 2024, month := 9, day := 30 }
    sampleRecord 2024 31
  refine ⟨h.1.mpr ⟨by simp, { year := 2024, month := 9, day := 15, sec := 3600 },
    rfl, by decide, by decide, rfl⟩, h.2.2.2⟩

/-- C4: an empty post-filter set makes `process_close_export` return the
explicit `none` signal (no row set, no exception), and the main flow then
presents the "no records for period" warning. -/
theorem empty_period_signal (df : List RawRecord) (d : Date) (mls_cost pa : ℚ)
    (h : df.filter (soldInMonth d) = []) :
    process_close_export df d mls_cost = .ok none ∧
    (∀ rows, process_close_export df d mls_cost ≠ .ok (some rows)) ∧
    mainOutcome df d mls_cost pa = .noRecords := by
  have hp : process_close_export df d mls_cost = .ok none := by
    rw [process_close_export]
    simp [h]
  refine ⟨hp, ?_, ?_⟩
  · intro rows hcon
    rw [hp] at hcon
    cases hcon
  · rw [mainOutcome, hp]

/-- Witness for C4: a September target over a single October row filters to
nothing and surfaces the warning outcome. -/
theorem empty_period_signal_witness :
    ([sampleRecord].filter (soldInMonth { year := 2024, month := 10, day := 31 }) = [] ∧
     process_close_export [sampleRecord] { year := 2024, month := 10, day := 31 } 500
       = .ok none) ∧
    mainOutcome [sampleRecord] { year := 2024, month := 10, day := 31 } 500 0
      = .noRecords := by
  have h0 : [sampleRecord].filter (soldInMonth { year := 2024, month := 10, day := 31 }) = [] := by
    decide
  have h := empty_period_signal [sampleRecord] { year := 2024, month := 10, day := 31 } 500 0 h0
  exact ⟨⟨h0, h.1⟩, h.2.2⟩

/-- C3 counterexample: `badMoneyRecord` survives the period filter, but its
present, non-numeric gross-sales-price cell makes `float()` raise, so the
whole run aborts with an error banner instead of resolving the field to
0.0. -/
theorem malformed_money_aborts_run :
    badMoneyRecord ∈ [badMoneyRecord].filter (soldInMonth { year := 2024, month := 9, day := 30 }) ∧
    process_close_export [badMoneyRecord] { year := 2024, month := 9, day := 30 } 500
      = .error "ValueError: could not convert string to float: N/A" ∧
    mainOutcome [badMoneyRecord] { year := 2024, month := 9, day := 30 } 500 0
      = .errorOut "ValueError: could not convert string to float: N/A" := by
  refine ⟨by decide, by with_unfolding_all rfl, by with_unfolding_all rfl⟩

/-- C3 amended: a filtered record's absent/null monetary or date field
resolves to its typed default (0.0 for money, the empty string for the
funding date) and extraction succeeds whenever every such field is null or
parseable; a present but unparseable field instead errors, aborting the
whole run (see the counterexample). -/
theorem null_fields_resolve_to_defaults (mls_cost : ℚ) (r : RawRecord)
    (hd : (fundingDateStr r.asset_date_sold).isOk = true)
    (h1 : (floatOf r.gross_sales_price).isOk = true)
    (h2 : (floatOf r.closing_costs).isOk = true)
    (h3 : (floatOf r.cost_basis).isOk = true) :
    ∃ b, buildRow mls_cost r = .ok b ∧
      (r.asset_date_sold = .null → b.funding_date = "") ∧
      (r.gross_sales_price = .null → b.gross_sales_price = 0) ∧
      (r.closing_costs = .null → b.closing_costs = 0) ∧
      (r.cost_basis = .null → b.asset_cost = 0 + mls_cost) := by
  cases hfd : fundingDateStr r.asset_date_sold with
  | error e => rw [hfd] at hd; cases hd
  | ok fd =>
  cases hgs : floatOf r.gross_sales_price with
  | error e => rw [hgs] at h1; cases h1
  | ok gs =>
  cases hcc : floatOf r.closing_costs with
  | error e => rw [hcc] at h2; cases h2
  | ok cc =>
  cases hcb : floatOf r.cost_basis with
  | error e => rw [hcb] at h3; cases h3
  | ok cb =>
  refine ⟨_, by rw [buildRow, hfd, hgs, hcc, hcb], ?_, ?_, ?_, ?_⟩
  · intro hnull
    rw [hnull] at hfd
    cases hfd
    rfl
  · intro hnull
    rw [hnull] at hgs
    cases hgs
    rfl
  · intro hnull
    rw [hnull] at hcc
    cases hcc
    rfl
  · intro hnull
    rw [hnull] at hcb
    cases hcb
    rfl

/-- Witness for the amended C3 at the all-null record. -/
theorem null_fields_resolve_to_defaults_witness :
    ((fundingDateStr nullRecord.asset_date_sold).isOk = true ∧
     (floatOf nullRecord.gross_sales_price).isOk = true ∧
     (floatOf nullRecord.closing_costs).isOk = true ∧
     (floatOf nullRecord.cost_basis).isOk = true) ∧
    (∃ b, buildRow 500 nullRecord = .ok b ∧
      (nullRecord.asset_date_sold = .null → b.funding_date = "") ∧
      (nullRecord.gross_sales_price = .null → b.gross_sales_price = 0) ∧
      (nullRecord.closing_costs = .null → b.closing_costs = 0) ∧
      (nullRecord.cost_basis = .null → b.asset_cost = 0 + 500)) := by
  exact ⟨⟨rfl, rfl, rfl, rfl⟩,
    null_fields_resolve_to_defaults 500 nullRecord rfl rfl rfl rfl⟩

/-- C5: on any display-name string, the county extractor returns whitespace
token 1 when at least two tokens exist and "Unknown" otherwise, the grantor
extractor returns token 2 when at least three exist and "Unknown" otherwise;
a two-token name resolves the county while the grantor stays "Unknown". -/
theorem display_name_token_extraction (s : String) :
    extract_county_from_display_name (.str s)
      = (if 2 ≤ (pySplit s).length then (pySplit s).getD 1 "" else "Unknown") ∧
    extract_grantor_from_display_name (.str s)
      = (if 3 ≤ (pySplit s).length then (pySplit s).getD 2 "" else "Unknown") ∧
    ((pySplit s).length = 2 →
      extract_county_from_display_name (.str s) = (pySplit s).getD 1 "" ∧
      extract_grantor_from_display_name (.str s) = "Unknown") := by
  have hc : extract_county_from_display_name (.str s)
      = (if 2 ≤ (pySplit s).length then (pySplit s).getD 1 "" else "Unknown") := by
    rw [extract_county_from_display_name]
    show (if h : 2 ≤ (pySplit s).length then _ else _) = _
    by_cases h : 2 ≤ (pySplit s).length
    · rw [dif_pos h, if_pos h, List.getD_eq_getElem?_getD,
        List.getElem?_eq_getElem (by omega), Option.getD_some]
      rfl
    · rw [dif_neg h, if_neg h]
  have hg : extract_grantor_from_display_name (.str s)
      = (if 3 ≤ (pySplit s).length then (pySplit s).getD 2 "" else "Unknown") := by
    rw [extract_grantor_from_display_name]
    show (if h : 3 ≤ (pySplit s).length then _ else _) = _
    by_cases h : 3 ≤ (pySplit s).length
    · rw [dif_pos h, if_pos h, List.getD_eq_getElem?_getD,
        List.getElem?_eq_getElem (by omega), Option.getD_some]
      rfl
    · rw [dif_neg h, if_neg h]
  refine ⟨hc, hg, fun h2 => ⟨?_, ?_⟩⟩
  · rw [hc, if_pos (by omega)]
  · rw [hg, if_neg (by omega)]

/-- Witness for C5 at the two-token name "TX Hidalgo". -/
theorem display_name_token_extraction_witness :
    (pySplit "TX Hidalgo").length = 2 ∧
    (extract_county_from_display_name (.str "TX Hidalgo") = (pySplit "TX Hidalgo").getD 1 "" ∧
     extract_grantor_from_display_name (.str "TX Hidalgo") = "Unknown") := by
  exact ⟨by decide, (display_name_token_extraction "TX Hidalgo").2.2 (by decide)⟩

/-- C10: a NaN display name makes both extractors return "Unknown" rather
than raise, and a non-string scalar is handled by first stringifying it:
the extractors agree with their behaviour on `str(value)`. -/
theorem display_name_nan_and_scalars (n : Int) :
    extract_county_from_display_name .nan = "Unknown" ∧
    extract_grantor_from_display_name .nan = "Unknown" ∧
    extract_county_from_display_name (.intVal n)
      = extract_county_from_display_name (.str (toString n)) ∧
    extract_grantor_from_display_name (.intVal n)
      = extract_grantor_from_display_name (.str (toString n)) :=
  ⟨rfl, rfl, rfl, rfl⟩

/-- C6: the aggregator's subtotal is the sum of the gross-profit column with
the empty sum 0, and the total is subtotal plus the prior adjustment, so an
empty row set totals exactly the adjustment. -/
theorem schedule_aggregator_totals (rows : List BonusRow) (pa : ℚ) :
    scheduleSubtotal [] = 0 ∧
    scheduleTotal [] pa = pa ∧
    scheduleTotal rows pa = scheduleSubtotal rows + pa ∧
    scheduleSubtotal rows = rows.foldr (fun b acc => b.gross_profit + acc) 0 := by
  refine ⟨rfl, ?_, rfl, ?_⟩
  · rw [scheduleTotal, show scheduleSubtotal [] = 0 from rfl, zero_add]
  · induction rows with
    | nil => rfl
    | cons b t ih =>
      simp only [scheduleSubtotal, List.map_cons, List.sum_cons, List.foldr_cons] at ih ⊢
      rw [ih]

/-- C8: when the main flow reports, the reported numeric rows are exactly the
processed rows (currency formatting never overwrote them), the subtotal and
total are computed from the numeric gross-profit column, and the display
rows are a separate, freshly mapped presentation copy. -/
theorem formatting_presentation_only (df : List RawRecord) (d : Date) (mls pa : ℚ)
    (rows : List BonusRow) (st tot : ℚ) (disp : List DisplayRow)
    (h : mainOutcome df d mls pa = .report rows st tot disp) :
    process_close_export df d mls = .ok (some rows) ∧
    st = (rows.map BonusRow.gross_profit).sum ∧
    tot = st + pa ∧
    disp = rows.map formatBonusRow := by
  rw [mainOutcome] at h
  cases hp : process_close_export df d mls with
  | error e => rw [hp] at h; cases h
  | ok o =>
    cases o with
    | none => rw [hp] at h; cases h
    | some rows' =>
      rw [hp] at h
      dsimp only at h
      by_cases hz : rows'.length = 0
      · rw [if_pos hz] at h; cases h
      · rw [if_neg hz] at h
        simp only [Outcome.report.injEq] at h
        obtain ⟨h1, h2, h3, h4⟩ := h
        subst h1
        exact ⟨rfl, h2.symm, by rw [← h3, ← h2], h4.symm⟩

/-- Witness for C8 at a one-row report with prior adjustment 1000. -/
theorem formatting_presentation_only_witness :
    mainOutcome [sampleRecord] { year := 2024, month := 9, day := 30 } 500 1000
      = .report [sampleBuilt] 47500 48500 [sampleDisplay] ∧
    (process_close_export [sampleRecord] { year := 2024, month := 9, day := 30 } 500
       = .ok (some [sampleBuilt]) ∧
     (47500 : ℚ) = ([sampleBuilt].map BonusRow.gross_profit).sum ∧
     (48500 : ℚ) = 47500 + 1000 ∧
     [sampleDisplay] = [sampleBuilt].map formatBonusRow) := by
  have h : mainOutcome [sampleRecord] { year := 2024, month := 9, day := 30 } 500 1000
      = .report [sampleBuilt] 47500 48500 [sampleDisplay] := by
    with_unfolding_all rfl
  exact ⟨h, formatting_presentation_only _ _ _ _ _ _ _ _ h⟩

theorem digitsAux_val : ∀ (fuel n : Nat), n ≤ fuel →
    (digitsAux fuel n).foldr (fun d acc => d + 10 * acc) 0 = n
  | 0, n, h => by
    simp [digitsAux]
    omega
  | fuel + 1, 0, _ => by simp [digitsAux]
  | fuel + 1, n + 1, h => by
    rw [show digitsAux (fuel + 1) (n + 1)
          = (n + 1) % 10 :: digitsAux fuel ((n + 1) / 10) from rfl,
      List.foldr_cons, digitsAux_val fuel ((n + 1) / 10) (by omega)]
    omega

theorem digitsAux_lt : ∀ (fuel n : Nat) (d : Nat), d ∈ digitsAux fuel n → d < 10
  | 0, _, d, h => by simp [digitsAux] at h
  | fuel + 1, 0, d, h => by simp [digitsAux] at h
  | fuel + 1, n + 1, d, h => by
    rw [show digitsAux (fuel + 1) (n + 1)
          = (n + 1) % 10 :: digitsAux fuel ((n + 1) / 10) from rfl,
      List.mem_cons] at h
    rcases h with h | h
    · omega
    · exact digitsAux_lt fuel ((n + 1) / 10) d h

theorem digitChar_isDigit (d : Nat) (hd : d < 10) : (digitChar d).isDigit = true := by
  interval_cases d <;> decide

theorem digitStr_isDigit (n : Nat) : ∀ c ∈ digitStr n, c.isDigit = true := by
  intro c hc
  rw [digitStr] at hc
  by_cases h0 : n = 0
  · rw [if_pos h0, List.mem_singleton] at hc
    subst hc
    decide
  · rw [if_neg h0, List.mem_reverse, List.mem_map] at hc
    obtain ⟨d, hd, rfl⟩ := hc
    exact digitChar_isDigit d (digitsAux_lt n n d hd)

theorem isDigit_ne_comma (c : Char) (h : c.isDigit = true) : c ≠ ',' := by
  intro hc
  subst hc
  simp at h

theorem chunk3_flatten {α : Type} : ∀ (l : List α), (chunk3 l).flatten = l
  | [] => rfl
  | [_] => rfl
  | [_, _] => rfl
  | a :: b :: c :: rest => by
    rw [chunk3, List.flatten_cons, chunk3_flatten rest]
    rfl

theorem chunk3_mem_length {α : Type} :
    ∀ (l : List α) (c : List α), c ∈ chunk3 l → 1 ≤ c.length ∧ c.length ≤ 3
  | [], c, h => by simp [chunk3] at h
  | [a], c, h => by
    rw [chunk3, List.mem_singleton] at h
    subst h
    simp
  | [a, b], c, h => by
    rw [chunk3, List.mem_singleton] at h
    subst h
    simp
  | a :: b :: c' :: rest, c, h => by
    rw [chunk3, List.mem_cons] at h
    rcases h with h | h
    · subst h
      simp
    · exact chunk3_mem_length rest c h

theorem chunk3_subset {α : Type} (l c : List α) (hc : c ∈ chunk3 l) :
    ∀ x ∈ c, x ∈ l := by
  intro x hx
  have : x ∈ (chunk3 l).flatten := List.mem_flatten.mpr ⟨c, hc, hx⟩
  rwa [chunk3_flatten] at this

theorem chunk3_eq_nil {α : Type} : ∀ (l : List α), chunk3 l = [] ↔ l = []
  | [] => by simp [chunk3]
  | [a] => by simp [chunk3]
  | [a, b] => by simp [chunk3]
  | a :: b :: c :: rest => by simp [chunk3]

theorem chunk3_dropLast_length {α : Type} :
    ∀ (l : List α) (c : List α), c ∈ (chunk3 l).dropLast → c.length = 3
  | [], c, h => by simp [chunk3] at h
  | [a], c, h => by simp [chunk3] at h
  | [a, b], c, h => by simp [chunk3] at h
  | a :: b :: c' :: rest, c, h => by
    rw [chunk3] at h
    by_cases hrest : chunk3 rest = []
    · rw [hrest] at h
      simp at h
    · obtain ⟨p, t, hpt⟩ := List.exists_cons_of_ne_nil hrest
      rw [hpt, List.dropLast_cons₂, List.mem_cons] at h
      rcases h with h | h
      · subst h
        rfl
      · exact chunk3_dropLast_length rest c (by rw [hpt]; exact h)


theorem flatten_map_reverse_reverse {α : Type} : ∀ (cs : List (List α)),
    ((cs.reverse).map List.reverse).flatten = cs.flatten.reverse
  | [] => rfl
  | c :: cs => by
    rw [List.reverse_cons, List.map_append, List.flatten_append,
      flatten_map_reverse_reverse cs, List.flatten_cons, List.reverse_append]
    simp

theorem commaGroups_flatten (ds : List Char) : (commaGroups ds).flatten = ds := by
  rw [commaGroups, flatten_map_reverse_reverse, chunk3_flatten, List.reverse_reverse]

theorem commaGroups_mem (ds : List Char) (p : List Char) (hp : p ∈ commaGroups ds) :
    1 ≤ p.length ∧ p.length ≤ 3 ∧ ∀ c ∈ p, c ∈ ds := by
  rw [commaGroups, List.mem_map] at hp
  obtain ⟨c, hc, rfl⟩ := hp
  rw [List.mem_reverse] at hc
  have hl := chunk3_mem_length ds.reverse c hc
  refine ⟨by simpa using hl.1, by simpa using hl.2, ?_⟩
  intro x hx
  rw [List.mem_reverse] at hx
  have hxs := chunk3_subset ds.reverse c hc x hx
  rwa [List.mem_reverse] at hxs

theorem commaGroups_tail_length (ds : List Char) :
    ∀ p ∈ (commaGroups ds).tail, p.length = 3 := by
  intro p hp
  rw [commaGroups, List.map_reverse, List.tail_reverse, List.mem_reverse,
    ← List.map_dropLast, List.mem_map] at hp
  obtain ⟨c, hc, rfl⟩ := hp
  simpa using chunk3_dropLast_length ds.reverse c hc

theorem joinComma_filter : ∀ (parts : List (List Char)),
    (∀ p ∈ parts, ∀ c ∈ p, c ≠ ',') →
    (joinComma parts).filter (fun c => c != ',') = parts.flatten
  | [], _ => rfl
  | [p], h => by
    rw [show joinComma [p] = p from rfl]
    have hself : p.filter (fun c => c != ',') = p :=
      List.filter_eq_self.mpr (fun c hc => by
        simpa [bne_iff_ne] using h p (List.mem_singleton.mpr rfl) c hc)
    simp [hself]
  | p :: q :: rest, h => by
    rw [show joinComma (p :: q :: rest) = p ++ ',' :: joinComma (q :: rest) from rfl,
      List.filter_append, List.filter_cons]
    have hself : p.filter (fun c => c != ',') = p :=
      List.filter_eq_self.mpr (fun c hc => by
        simpa [bne_iff_ne] using h p (List.mem_cons_self p (q :: rest)) c hc)
    have hrec := joinComma_filter (q :: rest)
      (fun p' hp' c hc => h p' (List.mem_cons_of_mem p hp') c hc)
    simp only [hself, hrec]
    simp

/-- C7 counterexample: the formatter renders -1 as "$-1.00" — the minus sign
follows the currency symbol, so the output neither leads with a minus before
the symbol nor uses parentheses, contradicting the claimed sign convention. -/
theorem currency_negative_sign_counterexample :
    format_currency (-1) = "$-1.00" ∧
    ("$-1.00").data.head? = some '$' ∧
    ¬ ("$-1.00").data.head? = some '-' ∧
    ¬ ("$-1.00").data.head? = some '(' := by
  refine ⟨by with_unfolding_all rfl, rfl, by decide, by decide⟩

/-- C7 amended: every formatted value is the currency symbol, then the sign
of the rounded cent count (a minus placed after the "$", not before it),
then the thousands-grouped integer digits, a decimal point and exactly two
fraction digits; removing the commas recovers exactly the decimal digits of
the integer part, every comma group after the first holds exactly three
digits, and the digits decode back to the integer part. -/
theorem currency_format_structure (q : ℚ) :
    format_currency q
      = "$" ++ (if roundHalfEven (q * 100) < 0 then "-" else "")
            ++ groupDigits (digitStr ((roundHalfEven (q * 100)).natAbs / 100))
            ++ "." ++ String.mk (twoFracDigits ((roundHalfEven (q * 100)).natAbs % 100)) ∧
    (format_currency q).data.head? = some '$' ∧
    (twoFracDigits ((roundHalfEven (q * 100)).natAbs % 100)).length = 2 ∧
    (∀ c ∈ twoFracDigits ((roundHalfEven (q * 100)).natAbs % 100), c.isDigit = true) ∧
    (groupDigits (digitStr ((roundHalfEven (q * 100)).natAbs / 100))).data.filter
        (fun c => c != ',')
      = digitStr ((roundHalfEven (q * 100)).natAbs / 100) ∧
    (∀ p ∈ commaGroups (digitStr ((roundHalfEven (q * 100)).natAbs / 100)),
        1 ≤ p.length ∧ p.length ≤ 3 ∧ ∀ c ∈ p, c.isDigit = true) ∧
    (∀ p ∈ (commaGroups (digitStr ((roundHalfEven (q * 100)).natAbs / 100))).tail,
        p.length = 3) ∧
    (natDigits ((roundHalfEven (q * 100)).natAbs / 100)).foldr
        (fun d acc => d + 10 * acc) 0
      = (roundHalfEven (q * 100)).natAbs / 100 := by
  have h1 : format_currency q
      = "$" ++ (if roundHalfEven (q * 100) < 0 then "-" else "")
            ++ groupDigits (digitStr ((roundHalfEven (q * 100)).natAbs / 100))
            ++ "." ++ String.mk (twoFracDigits ((roundHalfEven (q * 100)).natAbs % 100)) := by
    rw [format_currency]
  refine ⟨h1, ?_, rfl, ?_, ?_, ?_, commaGroups_tail_length _, ?_⟩
  · rw [h1]
    rw [show ("$" ++ (if roundHalfEven (q * 100) < 0 then "-" else "")
          ++ groupDigits (digitStr ((roundHalfEven (q * 100)).natAbs / 100))
          ++ "." ++ String.mk (twoFracDigits ((roundHalfEven (q * 100)).natAbs % 100)))
        = "$" ++ ((if roundHalfEven (q * 100) < 0 then "-" else "")
          ++ groupDigits (digitStr ((roundHalfEven (q * 100)).natAbs / 100))
          ++ "." ++ String.mk (twoFracDigits ((roundHalfEven (q * 100)).natAbs % 100)))
        from by simp [String.ext_iff, String.data_append, List.append_assoc]]
    rw [String.data_append]
    rfl
  · intro c hc
    rw [twoFracDigits, List.mem_cons, List.mem_singleton] at hc
    rcases hc with rfl | rfl
    · exact digitChar_isDigit _ (by omega)
    · exact digitChar_isDigit _ (by omega)
  · rw [groupDigits, show (String.mk (joinComma (commaGroups
        (digitStr ((roundHalfEven (q * 100)).natAbs / 100))))).data
        = joinComma (commaGroups (digitStr ((roundHalfEven (q * 100)).natAbs / 100)))
        from rfl,
      joinComma_filter _ (fun p hp c hc => isDigit_ne_comma c
        (digitStr_isDigit _ c ((commaGroups_mem _ p hp).2.2 c hc))),
      commaGroups_flatten]
  · intro p hp
    have hm := commaGroups_mem _ p hp
    exact ⟨hm.1, hm.2.1, fun c hc => digitStr_isDigit _ c (hm.2.2 c hc)⟩
  · exact digitsAux_val _ _ le_rfl

/-- Witness for the amended C7 at -1234.5: the full rendering, and the comma
group after the leading one holding exactly three digits. -/
theorem currency_format_structure_witness :
    format_currency (-1234.5) = "$-1,234.50" ∧
    (commaGroups (digitStr ((roundHalfEven ((-1234.5 : ℚ) * 100)).natAbs / 100))).tail
      = [['2', '3', '4']] ∧
    (['2', '3', '4'] : List Char).length = 3 := by
  have htail : (commaGroups (digitStr ((roundHalfEven ((-1234.5 : ℚ) * 100)).natAbs / 100))).tail
      = [['2', '3', '4']] := by
    with_unfolding_all rfl
  refine ⟨by with_unfolding_all rfl, htail, ?_⟩
  exact (currency_format_structure (-1234.5)).2.2.2.2.2.2.1 ['2', '3', '4']
    (htail ▸ List.mem_singleton.mpr rfl)

theorem rowCells_mem : ∀ (vs : List String) (r c j : Nat) (v : String),
    vs[j]? = some v →
    ({ row := r, col := c + j, content := v } : SheetCell) ∈ rowCells r c vs
  | [], _, _, j, v, h => by simp at h
  | w :: ws, r, c, 0, v, h => by
    rw [List.getElem?_cons_zero, Option.some_inj] at h
    subst h
    rw [rowCells]
    exact List.mem_cons_self _ _
  | w :: ws, r, c, j + 1, v, h => by
    rw [List.getElem?_cons_succ] at h
    have hrec := rowCells_mem ws r (c + 1) j v h
    rw [rowCells]
    refine List.mem_cons_of_mem _ ?_
    rw [show c + (j + 1) = c + 1 + j by omega]
    exact hrec

theorem tableCells_mem : ∀ (rowsL : List (List String)) (r i : Nat) (row : List String),
    rowsL[i]? = some row → ∀ (j : Nat) (v : String), row[j]? = some v →
    ({ row := r + i, col := 1 + j, content := v } : SheetCell) ∈ tableCells r rowsL
  | [], _, i, row, h => by simp at h
  | rw0 :: rest, r, 0, row, h => by
    rw [List.getElem?_cons_zero, Option.some_inj] at h
    subst h
    intro j v hv
    rw [tableCells, List.mem_append]
    exact Or.inl (rowCells_mem rw0 r 1 j v hv)
  | rw0 :: rest, r, i + 1, row, h => by
    rw [List.getElem?_cons_succ] at h
    intro j v hv
    have hrec := tableCells_mem rest (r + 1) i row h j v hv
    rw [tableCells, List.mem_append]
    refine Or.inr ?_
    rw [show r + (i + 1) = r + 1 + i by omega]
    exact hrec

/-- C9 counterexample: with one data row the table occupies Excel rows 3
(header) and 4 (data), yet the only SUBTOTAL label sits at row 5 — directly
below the last data row, not two rows below it (which would be row 6). -/
theorem excel_totals_offset_counterexample :
    ({ row := 4, col := 1, content := "09/20/24" } : SheetCell) ∈
      (export_to_excel dfRows1 headers10 "09/30/2024" "$47,500.00" "$0.00" "$47,500.00").cells ∧
    ((export_to_excel dfRows1 headers10 "09/30/2024" "$47,500.00" "$0.00" "$47,500.00").cells.filter
        (fun cell => cell.content == "SUBTOTAL")).map SheetCell.row = [5] ∧
    (5 : Nat) ≠ 4 + 2 := by decide

/-- C9 amended: for every non-empty row set the spreadsheet gets the bolded
title at A1 and period line at A2, the table header at row 3 (two rows below
the title line) with data from row 4, and the bolded SUBTOTAL / PRIOR
ADJUSTMENT / TOTAL label/value pairs in columns I and J on the three rows
starting immediately below the last data row (one row below it, not two);
column widths are the longest stringified cell value plus two, capped at
50. -/
theorem excel_layout (dfRows : List (List String)) (headers : List String)
    (monthStr st pa tot : String) (hne : dfRows ≠ []) :
    ({ row := 1, col := 1, content := "Remarkable Land® Bonus Schedule" } : SheetCell) ∈
      (export_to_excel dfRows headers monthStr st pa tot).cells ∧
    (1, 1) ∈ (export_to_excel dfRows headers monthStr st pa tot).boldCells ∧
    ({ row := 2, col := 1, content := "Month Ending: " ++ monthStr } : SheetCell) ∈
      (export_to_excel dfRows headers monthStr st pa tot).cells ∧
    (2, 1) ∈ (export_to_excel dfRows headers monthStr st pa tot).boldCells ∧
    (∀ (j : Nat) (h' : String), headers[j]? = some h' →
      ({ row := 3, col := 1 + j, content := h' } : SheetCell) ∈
        (export_to_excel dfRows headers monthStr st pa tot).cells) ∧
    (∀ (i : Nat) (row : List String), dfRows[i]? = some row →
      ∀ (j : Nat) (v : String), row[j]? = some v →
      ({ row := 4 + i, col := 1 + j, content := v } : SheetCell) ∈
        (export_to_excel dfRows headers monthStr st pa tot).cells) ∧
    (dfRows.length + 4 = (dfRows.length + 3) + 1 ∧
     ({ row := dfRows.length + 4, col := 9, content := "SUBTOTAL" } : SheetCell) ∈
       (export_to_excel dfRows headers monthStr st pa tot).cells ∧
     ({ row := dfRows.length + 4, col := 10, content := st } : SheetCell) ∈
       (export_to_excel dfRows headers monthStr st pa tot).cells ∧
     ({ row := dfRows.length + 5, col := 9, content := "PRIOR ADJUSTMENT" } : SheetCell) ∈
       (export_to_excel dfRows headers monthStr st pa tot).cells ∧
     ({ row := dfRows.length + 5, col := 10, content := pa } : SheetCell) ∈
       (export_to_excel dfRows headers monthStr st pa tot).cells ∧
     ({ row := dfRows.length + 6, col := 9, content := "TOTAL" } : SheetCell) ∈
       (export_to_excel dfRows headers monthStr st pa tot).cells ∧
     ({ row := dfRows.length + 6, col := 10, content := tot } : SheetCell) ∈
       (export_to_excel dfRows headers monthStr st pa tot).cells) ∧
    (∀ k, k ∈ [dfRows.length + 4, dfRows.length + 5, dfRows.length + 6] →
      (k, 9) ∈ (export_to_excel dfRows headers monthStr st pa tot).boldCells ∧
      (k, 10) ∈ (export_to_excel dfRows headers monthStr st pa tot).boldCells) ∧
    (∀ col, colWidth (export_to_excel dfRows headers monthStr st pa tot).cells col ≤ 50 ∧
      (maxColLen (export_to_excel dfRows headers monthStr st pa tot).cells col + 2 ≤ 50 →
        colWidth (export_to_excel dfRows headers monthStr st pa tot).cells col
          = maxColLen (export_to_excel dfRows headers monthStr st pa tot).cells col + 2)) := by
  refine ⟨?_, ?_, ?_, ?_, ?_, ?_, ⟨rfl, ?_, ?_, ?_, ?_, ?_, ?_⟩, ?_, ?_⟩
  · rw [export_to_excel]
    simp [List.mem_append]
  · rw [export_to_excel]
    simp
  · rw [export_to_excel]
    simp [List.mem_append]
  · rw [export_to_excel]
    simp
  · intro j h' hj
    rw [export_to_excel]
    simp only [List.mem_append]
    refine Or.inl ?_
    have := tableCells_mem (headers :: dfRows) 3 0 headers
      (by rw [List.getElem?_cons_zero]) j h' hj
    simpa using this
  · intro i row hi j v hv
    rw [export_to_excel]
    simp only [List.mem_append]
    refine Or.inl ?_
    have := tableCells_mem (headers :: dfRows) 3 (i + 1) row
      (by rw [List.getElem?_cons_succ]; exact hi) j v hv
    rw [show 3 + (i + 1) = 4 + i by omega] at this
    exact this
  · rw [export_to_excel]
    simp [List.mem_append]
  · rw [export_to_excel]
    simp [List.mem_append]
  · rw [export_to_excel]
    simp [List.mem_append]
  · rw [export_to_excel]
    simp [List.mem_append]
  · rw [export_to_excel]
    simp [List.mem_append]
  · rw [export_to_excel]
    simp [List.mem_append]
  · intro k hk
    rw [export_to_excel]
    rw [List.mem_cons, List.mem_cons, List.mem_singleton] at hk
    constructor <;> (rcases hk with rfl | rfl | rfl <;> simp)
  · intro col
    constructor
    · exact min_le_right _ _
    · intro hle
      exact min_eq_left hle

/-- Witness for the amended C9 at the one-row sheet. -/
theorem excel_layout_witness :
    (dfRows1 ≠ []) ∧
    (({ row := 1, col := 1, content := "Remarkable Land® Bonus Schedule" } : SheetCell) ∈
      (export_to_excel dfRows1 headers10 "09/30/2024" "$47,500.00" "$0.00" "$47,500.00").cells) ∧
    (({ row := dfRows1.length + 4, col := 9, content := "SUBTOTAL" } : SheetCell) ∈
      (export_to_excel dfRows1 headers10 "09/30/2024" "$47,500.00" "$0.00" "$47,500.00").cells) := by
  have h := excel_layout dfRows1 headers10 "09/30/2024" "$47,500.00" "$0.00" "$47,500.00"
    (by decide)
  exact ⟨by decide, h.1, h.2.2.2.2.2.2.1.2.1⟩
